import Mathlib

/-!
Verification of the terminal capability shim headers of the `fltr`
repository (`Sources/FltrCSystem/include/shims.h` and
`Sources/BokehCSystem/include/shims.h`).

The headers contain three inline wrappers:
  * `fltr_ioctl_TIOCGWINSZ` (and its duplicate `bokeh_ioctl_TIOCGWINSZ`),
    a pass-through around `ioctl(fd, TIOCGWINSZ, ws)`;
  * `fltr_termios_setVMIN` and `fltr_termios_setVTIME`, which write a
    `cc_t` value into the platform-dependent `VMIN` / `VTIME` slot of the
    `c_cc` array of a `struct termios`.

The platform-dependent constants `NCCS`, `VMIN`, `VTIME` are embedded as a
`Platform` record; the two layouts named by the header comment (macOS and
Linux glibc/musl) are the supported platforms.  The OS `ioctl` call itself
is external to the repository, so wrappers take it as an explicit function
argument, and the spec-described behaviour of the OS request is available
as `osIoctlModel`.
-/

/-- Platform-dependent constants of the C library's `struct termios`
layout: the length `NCCS` of the `c_cc` control-character array and the
indices of the `VMIN` and `VTIME` slots in it. -/
structure Platform where
  NCCS : Nat
  VMIN : Nat
  VTIME : Nat
  deriving DecidableEq, Repr

/-- The macOS layout named in the header comment: `c_cc` is a 20-element
tuple with `VMIN = 16` and `VTIME = 17`. -/
def macOS : Platform := ⟨20, 16, 17⟩

/-- The Linux glibc/musl layout named in the header comment: `c_cc` is a
32-element array with `VMIN = 6` and `VTIME = 5`. -/
def linuxGlibc : Platform := ⟨32, 6, 5⟩

/-- The platforms the header's comment documents as supported. -/
def supportedPlatforms : List Platform := [macOS, linuxGlibc]

/-- The `struct winsize` record filled in by `TIOCGWINSZ`; all four
fields are unsigned shorts. -/
structure Winsize where
  ws_row : Nat
  ws_col : Nat
  ws_xpixel : Nat
  ws_ypixel : Nat
  deriving DecidableEq, Repr

/-- The `struct termios` record: four mode flags, the line discipline
byte, the control-character array `c_cc`, and the two speed fields.  The
`c_cc` array is a list whose length is the platform's `NCCS`. -/
structure Termios where
  c_iflag : Nat
  c_oflag : Nat
  c_cflag : Nat
  c_lflag : Nat
  c_line : Nat
  c_cc : List Nat
  c_ispeed : Nat
  c_ospeed : Nat
  deriving DecidableEq, Repr

/-- One more than the largest value of the C type `cc_t` (an unsigned
char), bounding the valid range of control-character values. -/
def ccMax : Nat := 256

/-- Embedding of `fltr_termios_setVMIN`: `t->c_cc[VMIN] = value;`.  The
platform supplies the index `VMIN`. -/
def fltr_termios_setVMIN (p : Platform) (t : Termios) (value : Nat) : Termios :=
  { t with c_cc := t.c_cc.set p.VMIN value }

/-- Embedding of `fltr_termios_setVTIME`: `t->c_cc[VTIME] = value;`.  The
platform supplies the index `VTIME`. -/
def fltr_termios_setVTIME (p : Platform) (t : Termios) (value : Nat) : Termios :=
  { t with c_cc := t.c_cc.set p.VTIME value }

/-- The semantics of the OS `ioctl(fd, TIOCGWINSZ, ws)` request, taken as
a black box: from the descriptor and the current contents of the caller's
size record it produces the integer status and the record's contents after
the call. -/
def OsIoctl : Type := Int → Winsize → Int × Winsize

/-- Embedding of `fltr_ioctl_TIOCGWINSZ`: `return ioctl(fd, TIOCGWINSZ, ws);`,
with the OS call passed in as `os`. -/
def fltr_ioctl_TIOCGWINSZ (os : OsIoctl) (fd : Int) (ws : Winsize) : Int × Winsize :=
  os fd ws

/-- Embedding of `bokeh_ioctl_TIOCGWINSZ` from the Bokeh copy of the
header: `return ioctl(fd, TIOCGWINSZ, ws);`, with the OS call passed in
as `os`. -/
def bokeh_ioctl_TIOCGWINSZ (os : OsIoctl) (fd : Int) (ws : Winsize) : Int × Winsize :=
  os fd ws

/-- Modelled from the spec: the OS `TIOCGWINSZ` control request, which is
not part of the repository.  Per the spec, on a valid terminal descriptor
it returns a zero status and fills the size record with the terminal's
dimensions; on an invalid descriptor it returns a negative error sentinel
and leaves the caller's record in its prior state.  `valid` tells which
descriptors refer to terminals and `dims` gives each terminal's
dimensions. -/
def osIoctlModel (valid : Int → Bool) (dims : Int → Winsize) : OsIoctl :=
  fun fd ws => if valid fd then (0, dims fd) else (-1, ws)

/-- A terminal-attributes record with every field zero and a `c_cc`
array of the platform's length, all slots zero. -/
def zeroTermios (p : Platform) : Termios :=
  ⟨0, 0, 0, 0, 0, List.replicate p.NCCS 0, 0, 0⟩

/-- On every supported platform the `VMIN` and `VTIME` indices are in
bounds for the `c_cc` array and distinct from each other. -/
theorem supported_indices_ok (p : Platform) (hp : p ∈ supportedPlatforms) :
    p.VMIN < p.NCCS ∧ p.VTIME < p.NCCS ∧ p.VMIN ≠ p.VTIME := by
  simp [supportedPlatforms] at hp
  rcases hp with rfl | rfl <;> refine ⟨by decide, by decide, by decide⟩

/-- C1: for every terminal-attributes record whose `c_cc` array has the
platform's length and every value in the range of `cc_t`, after
`fltr_termios_setVMIN` the `VMIN` slot of the record, read back at the
platform's own `VMIN` index, holds that value. -/
theorem C1_setVMIN_roundtrip (p : Platform) (hp : p ∈ supportedPlatforms)
    (t : Termios) (ht : t.c_cc.length = p.NCCS) (v : Nat) (hv : v < ccMax) :
    (fltr_termios_setVMIN p t v).c_cc[p.VMIN]? = some v := by
  have hb : p.VMIN < t.c_cc.length := ht ▸ (supported_indices_ok p hp).1
  simp [fltr_termios_setVMIN, List.getElem?_set_self hb]

/-- C1 witness: a concrete instantiation on macOS with the all-zero
record and the value 3. -/
theorem C1_setVMIN_roundtrip_witness :
    macOS ∈ supportedPlatforms ∧ (zeroTermios macOS).c_cc.length = macOS.NCCS ∧
      3 < ccMax ∧
      (fltr_termios_setVMIN macOS (zeroTermios macOS) 3).c_cc[macOS.VMIN]? = some 3 :=
  ⟨by decide, by decide, by decide,
    C1_setVMIN_roundtrip macOS (by decide) (zeroTermios macOS) (by decide) 3 (by decide)⟩

/-- C2: for every record whose `c_cc` array has the platform's length and
every value in the range of `cc_t`, `fltr_termios_setVTIME` makes the
`VTIME` slot read back as that value, whatever the `VMIN` slot currently
holds; moreover each of the two setters leaves the other slot exactly as
it was. -/
theorem C2_setVTIME_roundtrip_frame (p : Platform) (hp : p ∈ supportedPlatforms)
    (t : Termios) (ht : t.c_cc.length = p.NCCS) (v : Nat) (hv : v < ccMax) :
    (fltr_termios_setVTIME p t v).c_cc[p.VTIME]? = some v ∧
      (fltr_termios_setVTIME p t v).c_cc[p.VMIN]? = t.c_cc[p.VMIN]? ∧
      (fltr_termios_setVMIN p t v).c_cc[p.VTIME]? = t.c_cc[p.VTIME]? := by
  obtain ⟨hmin, htime, hne⟩ := supported_indices_ok p hp
  refine ⟨?_, ?_, ?_⟩
  · have hb : p.VTIME < t.c_cc.length := ht ▸ htime
    simp [fltr_termios_setVTIME, List.getElem?_set_self hb]
  · simp [fltr_termios_setVTIME, List.getElem?_set_ne (Ne.symm hne)]
  · simp [fltr_termios_setVMIN, List.getElem?_set_ne hne]

/-- C2 witness: a concrete instantiation on Linux glibc with the all-zero
record and the value 7. -/
theorem C2_setVTIME_roundtrip_frame_witness :
    linuxGlibc ∈ supportedPlatforms ∧
      (zeroTermios linuxGlibc).c_cc.length = linuxGlibc.NCCS ∧ 7 < ccMax ∧
      ((fltr_termios_setVTIME linuxGlibc (zeroTermios linuxGlibc) 7).c_cc[linuxGlibc.VTIME]? = some 7 ∧
        (fltr_termios_setVTIME linuxGlibc (zeroTermios linuxGlibc) 7).c_cc[linuxGlibc.VMIN]? =
          (zeroTermios linuxGlibc).c_cc[linuxGlibc.VMIN]? ∧
        (fltr_termios_setVMIN linuxGlibc (zeroTermios linuxGlibc) 7).c_cc[linuxGlibc.VTIME]? =
          (zeroTermios linuxGlibc).c_cc[linuxGlibc.VTIME]?) :=
  ⟨by decide, by decide, by decide,
    C2_setVTIME_roundtrip_frame linuxGlibc (by decide) (zeroTermios linuxGlibc) (by decide) 7
      (by decide)⟩

/-- C3: starting from the all-zero record, calling `fltr_termios_setVMIN`
with 1 and then `fltr_termios_setVTIME` with 2 yields a record whose
`VMIN` slot reads 1, whose `VTIME` slot reads 2, and whose every other
field — the mode flags, line discipline, speeds, and every other `c_cc`
slot — still equals zero. -/
theorem C3_zero_scenario (p : Platform) (hp : p ∈ supportedPlatforms) :
    (fltr_termios_setVTIME p (fltr_termios_setVMIN p (zeroTermios p) 1) 2).c_cc[p.VMIN]? =
        some 1 ∧
      (fltr_termios_setVTIME p (fltr_termios_setVMIN p (zeroTermios p) 1) 2).c_cc[p.VTIME]? =
        some 2 ∧
      (fltr_termios_setVTIME p (fltr_termios_setVMIN p (zeroTermios p) 1) 2).c_iflag = 0 ∧
      (fltr_termios_setVTIME p (fltr_termios_setVMIN p (zeroTermios p) 1) 2).c_oflag = 0 ∧
      (fltr_termios_setVTIME p (fltr_termios_setVMIN p (zeroTermios p) 1) 2).c_cflag = 0 ∧
      (fltr_termios_setVTIME p (fltr_termios_setVMIN p (zeroTermios p) 1) 2).c_lflag = 0 ∧
      (fltr_termios_setVTIME p (fltr_termios_setVMIN p (zeroTermios p) 1) 2).c_line = 0 ∧
      (fltr_termios_setVTIME p (fltr_termios_setVMIN p (zeroTermios p) 1) 2).c_ispeed = 0 ∧
      (fltr_termios_setVTIME p (fltr_termios_setVMIN p (zeroTermios p) 1) 2).c_ospeed = 0 ∧
      ∀ i, i < p.NCCS → i ≠ p.VMIN → i ≠ p.VTIME →
        (fltr_termios_setVTIME p (fltr_termios_setVMIN p (zeroTermios p) 1) 2).c_cc[i]? =
          some 0 := by
  simp [supportedPlatforms] at hp
  rcases hp with rfl | rfl <;> exact by decide

/-- C3 witness: the scenario instantiated on the Linux glibc layout. -/
theorem C3_zero_scenario_witness :
    linuxGlibc ∈ supportedPlatforms ∧
      ((fltr_termios_setVTIME linuxGlibc
            (fltr_termios_setVMIN linuxGlibc (zeroTermios linuxGlibc) 1) 2).c_cc[linuxGlibc.VMIN]? =
        some 1 ∧
      (fltr_termios_setVTIME linuxGlibc
            (fltr_termios_setVMIN linuxGlibc (zeroTermios linuxGlibc) 1) 2).c_cc[linuxGlibc.VTIME]? =
        some 2 ∧
      (fltr_termios_setVTIME linuxGlibc
          (fltr_termios_setVMIN linuxGlibc (zeroTermios linuxGlibc) 1) 2).c_iflag = 0 ∧
      (fltr_termios_setVTIME linuxGlibc
          (fltr_termios_setVMIN linuxGlibc (zeroTermios linuxGlibc) 1) 2).c_oflag = 0 ∧
      (fltr_termios_setVTIME linuxGlibc
          (fltr_termios_setVMIN linuxGlibc (zeroTermios linuxGlibc) 1) 2).c_cflag = 0 ∧
      (fltr_termios_setVTIME linuxGlibc
          (fltr_termios_setVMIN linuxGlibc (zeroTermios linuxGlibc) 1) 2).c_lflag = 0 ∧
      (fltr_termios_setVTIME linuxGlibc
          (fltr_termios_setVMIN linuxGlibc (zeroTermios linuxGlibc) 1) 2).c_line = 0 ∧
      (fltr_termios_setVTIME linuxGlibc
          (fltr_termios_setVMIN linuxGlibc (zeroTermios linuxGlibc) 1) 2).c_ispeed = 0 ∧
      (fltr_termios_setVTIME linuxGlibc
          (fltr_termios_setVMIN linuxGlibc (zeroTermios linuxGlibc) 1) 2).c_ospeed = 0 ∧
      ∀ i, i < linuxGlibc.NCCS → i ≠ linuxGlibc.VMIN → i ≠ linuxGlibc.VTIME →
        (fltr_termios_setVTIME linuxGlibc
            (fltr_termios_setVMIN linuxGlibc (zeroTermios linuxGlibc) 1) 2).c_cc[i]? =
          some 0) :=
  ⟨by decide, C3_zero_scenario linuxGlibc (by decide)⟩

/-- C4: for every OS call semantics, file descriptor and size record,
`fltr_ioctl_TIOCGWINSZ` returns exactly the status and record contents
produced by the underlying `ioctl(fd, TIOCGWINSZ, ws)` call, with no
reinterpretation, catching, retrying, or reclassification. -/
theorem C4_ioctl_verbatim (os : OsIoctl) (fd : Int) (ws : Winsize) :
    fltr_ioctl_TIOCGWINSZ os fd ws = os fd ws := rfl

/-- C5: under the spec-modelled OS semantics, on a descriptor that is not
a valid terminal the wrapper returns a negative status and the caller's
size record is left exactly in its prior state. -/
theorem C5_invalid_fd (valid : Int → Bool) (dims : Int → Winsize) (fd : Int)
    (ws : Winsize) (h : valid fd = false) :
    (fltr_ioctl_TIOCGWINSZ (osIoctlModel valid dims) fd ws).1 < 0 ∧
      (fltr_ioctl_TIOCGWINSZ (osIoctlModel valid dims) fd ws).2 = ws := by
  simp [fltr_ioctl_TIOCGWINSZ, osIoctlModel, h]

/-- C5 witness: with no descriptor valid, descriptor 5 yields a negative
status and the record `⟨1, 2, 3, 4⟩` is returned untouched. -/
theorem C5_invalid_fd_witness :
    (fun _ : Int => false) 5 = false ∧
      ((fltr_ioctl_TIOCGWINSZ (osIoctlModel (fun _ => false) (fun _ => ⟨0, 0, 0, 0⟩))
            5 ⟨1, 2, 3, 4⟩).1 < 0 ∧
        (fltr_ioctl_TIOCGWINSZ (osIoctlModel (fun _ => false) (fun _ => ⟨0, 0, 0, 0⟩))
            5 ⟨1, 2, 3, 4⟩).2 = ⟨1, 2, 3, 4⟩) :=
  ⟨rfl, C5_invalid_fd (fun _ => false) (fun _ => ⟨0, 0, 0, 0⟩) 5 ⟨1, 2, 3, 4⟩ rfl⟩

/-- C6: the two setters have no error path: on every supported platform
the `VMIN` and `VTIME` indices are within the bounds of a `c_cc` array of
the platform's length, and each setter totally produces a record whose
`c_cc` array still has that length. -/
theorem C6_setters_total (p : Platform) (hp : p ∈ supportedPlatforms)
    (t : Termios) (ht : t.c_cc.length = p.NCCS) (v : Nat) :
    p.VMIN < t.c_cc.length ∧ p.VTIME < t.c_cc.length ∧
      (fltr_termios_setVMIN p t v).c_cc.length = p.NCCS ∧
      (fltr_termios_setVTIME p t v).c_cc.length = p.NCCS := by
  obtain ⟨hmin, htime, _⟩ := supported_indices_ok p hp
  exact ⟨ht ▸ hmin, ht ▸ htime,
    by simp [fltr_termios_setVMIN, ht],
    by simp [fltr_termios_setVTIME, ht]⟩

/-- C6 witness: instantiation on macOS with the all-zero record and the
value 9. -/
theorem C6_setters_total_witness :
    macOS ∈ supportedPlatforms ∧ (zeroTermios macOS).c_cc.length = macOS.NCCS ∧
      (macOS.VMIN < (zeroTermios macOS).c_cc.length ∧
        macOS.VTIME < (zeroTermios macOS).c_cc.length ∧
        (fltr_termios_setVMIN macOS (zeroTermios macOS) 9).c_cc.length = macOS.NCCS ∧
        (fltr_termios_setVTIME macOS (zeroTermios macOS) 9).c_cc.length = macOS.NCCS) :=
  ⟨by decide, by decide, C6_setters_total macOS (by decide) (zeroTermios macOS) (by decide) 9⟩

/-- C7: under the spec-modelled OS semantics, on a valid terminal
descriptor whose terminal has positive dimensions the wrapper returns a
non-negative status and fills the caller's size record with strictly
positive row and column counts. -/
theorem C7_valid_fd (valid : Int → Bool) (dims : Int → Winsize) (fd : Int)
    (ws : Winsize) (h : valid fd = true) (hr : 0 < (dims fd).ws_row)
    (hc : 0 < (dims fd).ws_col) :
    0 ≤ (fltr_ioctl_TIOCGWINSZ (osIoctlModel valid dims) fd ws).1 ∧
      0 < (fltr_ioctl_TIOCGWINSZ (osIoctlModel valid dims) fd ws).2.ws_row ∧
      0 < (fltr_ioctl_TIOCGWINSZ (osIoctlModel valid dims) fd ws).2.ws_col := by
  simp [fltr_ioctl_TIOCGWINSZ, osIoctlModel, h, hr, hc]

/-- C7 witness: every descriptor valid with an 80x24 terminal; descriptor
0 yields a non-negative status and positive dimensions. -/
theorem C7_valid_fd_witness :
    (fun _ : Int => true) 0 = true ∧
      0 < ((fun _ : Int => (⟨24, 80, 0, 0⟩ : Winsize)) 0).ws_row ∧
      0 < ((fun _ : Int => (⟨24, 80, 0, 0⟩ : Winsize)) 0).ws_col ∧
      (0 ≤ (fltr_ioctl_TIOCGWINSZ
            (osIoctlModel (fun _ => true) (fun _ => ⟨24, 80, 0, 0⟩)) 0 ⟨0, 0, 0, 0⟩).1 ∧
        0 < (fltr_ioctl_TIOCGWINSZ
            (osIoctlModel (fun _ => true) (fun _ => ⟨24, 80, 0, 0⟩)) 0 ⟨0, 0, 0, 0⟩).2.ws_row ∧
        0 < (fltr_ioctl_TIOCGWINSZ
            (osIoctlModel (fun _ => true) (fun _ => ⟨24, 80, 0, 0⟩)) 0 ⟨0, 0, 0, 0⟩).2.ws_col) :=
  ⟨rfl, by decide, by decide,
    C7_valid_fd (fun _ => true) (fun _ => ⟨24, 80, 0, 0⟩) 0 ⟨0, 0, 0, 0⟩ rfl
      (by decide) (by decide)⟩

/-- C8: the two duplicated headers define behaviourally identical
get-window-size wrappers: for every OS call semantics, file descriptor
and size record, `bokeh_ioctl_TIOCGWINSZ` and `fltr_ioctl_TIOCGWINSZ`
return the same status and have the same effect on the size record. -/
theorem C8_bokeh_fltr_equiv (os : OsIoctl) (fd : Int) (ws : Winsize) :
    bokeh_ioctl_TIOCGWINSZ os fd ws = fltr_ioctl_TIOCGWINSZ os fd ws := rfl

/-- C9: the shim operations hold no internal or shared state: two
invocations of the same operation on equal inputs — the platform, the
record and the value for the setters; the OS call semantics, the
descriptor and the record for the window-size wrapper — produce equal
results and equal final records. -/
theorem C9_stateless_deterministic (p q : Platform) (t u : Termios) (v w : Nat)
    (os os2 : OsIoctl) (fd fd2 : Int) (ws ws2 : Winsize)
    (hpq : p = q) (htu : t = u) (hvw : v = w) (hos : os = os2) (hfd : fd = fd2)
    (hws : ws = ws2) :
    fltr_termios_setVMIN p t v = fltr_termios_setVMIN q u w ∧
      fltr_termios_setVTIME p t v = fltr_termios_setVTIME q u w ∧
      fltr_ioctl_TIOCGWINSZ os fd ws = fltr_ioctl_TIOCGWINSZ os2 fd2 ws2 := by
  subst hpq; subst htu; subst hvw; subst hos; subst hfd; subst hws
  exact ⟨rfl, rfl, rfl⟩

/-- C9 witness: concrete equal inputs on macOS with value 5 and a
constant OS semantics. -/
theorem C9_stateless_deterministic_witness :
    macOS = macOS ∧
      (fltr_termios_setVMIN macOS (zeroTermios macOS) 5 =
          fltr_termios_setVMIN macOS (zeroTermios macOS) 5 ∧
        fltr_termios_setVTIME macOS (zeroTermios macOS) 5 =
          fltr_termios_setVTIME macOS (zeroTermios macOS) 5 ∧
        fltr_ioctl_TIOCGWINSZ (osIoctlModel (fun _ => true) (fun _ => ⟨24, 80, 0, 0⟩))
            1 ⟨0, 0, 0, 0⟩ =
          fltr_ioctl_TIOCGWINSZ (osIoctlModel (fun _ => true) (fun _ => ⟨24, 80, 0, 0⟩))
            1 ⟨0, 0, 0, 0⟩) :=
  ⟨rfl,
    C9_stateless_deterministic macOS macOS (zeroTermios macOS) (zeroTermios macOS) 5 5
      (osIoctlModel (fun _ => true) (fun _ => ⟨24, 80, 0, 0⟩))
      (osIoctlModel (fun _ => true) (fun _ => ⟨24, 80, 0, 0⟩))
      1 1 ⟨0, 0, 0, 0⟩ ⟨0, 0, 0, 0⟩ rfl rfl rfl rfl rfl rfl⟩

/-- C10: on every supported platform the `VMIN` and `VTIME` indices are
distinct, so the two setters commute: applying `fltr_termios_setVMIN`
with `a` and then `fltr_termios_setVTIME` with `b` yields the same record
as applying them in the opposite order. -/
theorem C10_setters_commute (p : Platform) (hp : p ∈ supportedPlatforms)
    (t : Termios) (a b : Nat) :
    fltr_termios_setVTIME p (fltr_termios_setVMIN p t a) b =
      fltr_termios_setVMIN p (fltr_termios_setVTIME p t b) a := by
  have hne : p.VMIN ≠ p.VTIME := (supported_indices_ok p hp).2.2
  simp only [fltr_termios_setVMIN, fltr_termios_setVTIME]
  rw [List.set_comm a b t.c_cc hne]

/-- C10 witness: the two application orders agree on Linux glibc starting
from the all-zero record with values 1 and 2. -/
theorem C10_setters_commute_witness :
    linuxGlibc ∈ supportedPlatforms ∧
      fltr_termios_setVTIME linuxGlibc
          (fltr_termios_setVMIN linuxGlibc (zeroTermios linuxGlibc) 1) 2 =
        fltr_termios_setVMIN linuxGlibc
          (fltr_termios_setVTIME linuxGlibc (zeroTermios linuxGlibc) 2) 1 :=
  ⟨by decide, C10_setters_commute linuxGlibc (by decide) (zeroTermios linuxGlibc) 1 2⟩
